import Mathlib

/-!
Shallow embedding of the PKCE helpers and the authorization-code token
exchange of the OIDC test client (a Next.js frontend).  The embedded
functions follow the source: `generateRandomString` and `sha256` from
`src/app/page.tsx`, and `exchangeCodeForTokens` together with the callback
page's parameter handling from the auth callback page.  Randomness, the
browser session storage and the HTTP response are passed explicitly.
-/

namespace OidcClient

/-! ## Byte-level encodings -/

/-- UTF-8 encoding of a single Unicode scalar value, as `TextEncoder` does. -/
def utf8EncodeChar (c : Char) : List Nat :=
  let n := c.toNat
  if n < 128 then [n]
  else if n < 2048 then [192 + n / 64, 128 + n % 64]
  else if n < 65536 then [224 + n / 4096, 128 + n / 64 % 64, 128 + n % 64]
  else [240 + n / 262144, 128 + n / 4096 % 64, 128 + n / 64 % 64, 128 + n % 64]

/-- The byte sequence produced by `new TextEncoder().encode(s)`. -/
def utf8Bytes (s : String) : List Nat :=
  s.data.flatMap utf8EncodeChar

/-- The standard base64 alphabet used by `btoa`. -/
def b64StdAlphabet : List Char :=
  "ABCDEFGHIJKLMNOPQRSTUVWXYZabcdefghijklmnopqrstuvwxyz0123456789+/".data

/-- The base64url alphabet (RFC 4648 §5). -/
def b64UrlAlphabet : List Char :=
  "ABCDEFGHIJKLMNOPQRSTUVWXYZabcdefghijklmnopqrstuvwxyz0123456789-_".data

/-- Base64 encoding of a byte list over a given alphabet; `padded` selects
whether `=` padding is appended to a final short group, as `btoa` does. -/
def b64Encode (alpha : List Char) (padded : Bool) : List Nat → List Char
  | [] => []
  | [b1] =>
      [alpha.getD (b1 / 4) ' ', alpha.getD (b1 % 4 * 16) ' ']
        ++ (if padded then ['=', '='] else [])
  | [b1, b2] =>
      [alpha.getD (b1 / 4) ' ', alpha.getD (b1 % 4 * 16 + b2 / 16) ' ',
       alpha.getD (b2 % 16 * 4) ' ']
        ++ (if padded then ['='] else [])
  | b1 :: b2 :: b3 :: rest =>
      [alpha.getD (b1 / 4) ' ', alpha.getD (b1 % 4 * 16 + b2 / 16) ' ',
       alpha.getD (b2 % 16 * 4 + b3 / 64) ' ', alpha.getD (b3 % 64) ' ']
        ++ b64Encode alpha padded rest

/-- `btoa` applied to a binary string holding the given bytes. -/
def btoaChars (bytes : List Nat) : List Char :=
  b64Encode b64StdAlphabet true bytes

/-- The effect of `.replace(/x/g, "y")` on the character list of a string,
for single-character patterns. -/
def replaceAllChar (x y : Char) (l : List Char) : List Char :=
  l.map (fun c => if c = x then y else c)

/-- The effect of `.replace(/=+$/, "")`: strip every trailing `=`. -/
def stripTrailingEq (l : List Char) : List Char :=
  (l.reverse.dropWhile (fun c => c = '=')).reverse

/-! ## SHA-256 (crypto.subtle.digest "SHA-256") -/

/-- `2 ^ 32`, the word modulus of SHA-256. -/
def M32 : Nat := 4294967296

/-- Right rotation of a 32-bit word. -/
def rotr32 (n x : Nat) : Nat :=
  ((x >>> n) ||| (x <<< (32 - n))) % M32

/-- Bitwise complement of a 32-bit word. -/
def bnot32 (x : Nat) : Nat := x ^^^ 4294967295

/-- SHA-256 round constants (FIPS 180-4, written in decimal). -/
def sha256K : List Nat :=
  [1116352408, 1899447441, 3049323471, 3921009573,
   961987163, 1508970993, 2453635748, 2870763221,
   3624381080, 310598401, 607225278, 1426881987,
   1925078388, 2162078206, 2614888103, 3248222580,
   3835390401, 4022224774, 264347078, 604807628,
   770255983, 1249150122, 1555081692, 1996064986,
   2554220882, 2821834349, 2952996808, 3210313671,
   3336571891, 3584528711, 113926993, 338241895,
   666307205, 773529912, 1294757372, 1396182291,
   1695183700, 1986661051, 2177026350, 2456956037,
   2730485921, 2820302411, 3259730800, 3345764771,
   3516065817, 3600352804, 4094571909, 275423344,
   430227734, 506948616, 659060556, 883997877,
   958139571, 1322822218, 1537002063, 1747873779,
   1955562222, 2024104815, 2227730452, 2361852424,
   2428436474, 2756734187, 3204031479, 3329325298]

/-- The eight working variables of the SHA-256 compression function. -/
structure Hash8 where
  a : Nat
  b : Nat
  c : Nat
  d : Nat
  e : Nat
  f : Nat
  g : Nat
  h : Nat
deriving DecidableEq, Repr

/-- SHA-256 initial hash value (FIPS 180-4, written in decimal). -/
def sha256H0 : Hash8 :=
  ⟨1779033703, 3144134277, 1013904242, 2773480762,
   1359893119, 2600822924, 528734635, 1541459225⟩

/-- SHA-256 padding: append `0x80`, zero bytes, then the 64-bit big-endian
bit length, reaching a multiple of 64 bytes. -/
def sha256Pad (msg : List Nat) : List Nat :=
  let len := msg.length
  let bitLen := len * 8
  let zeros := (119 - len % 64) % 64
  msg ++ [128] ++ List.replicate zeros 0 ++
    [bitLen / 72057594037927936 % 256, bitLen / 281474976710656 % 256,
     bitLen / 1099511627776 % 256, bitLen / 4294967296 % 256,
     bitLen / 16777216 % 256, bitLen / 65536 % 256,
     bitLen / 256 % 256, bitLen % 256]

/-- Split a byte list into 64-byte blocks; the fuel bounds the recursion
and is at least the list length at every call. -/
def chunks64Go (fuel : Nat) (l : List Nat) : List (List Nat) :=
  match fuel, l with
  | _, [] => []
  | 0, _ => []
  | fuel + 1, l => l.take 64 :: chunks64Go fuel (l.drop 64)

/-- Split a byte list into 64-byte blocks. -/
def chunks64 (l : List Nat) : List (List Nat) :=
  chunks64Go l.length l

/-- A big-endian 32-bit word from the first four bytes of a list. -/
def beWord (bs : List Nat) : Nat :=
  bs.getD 0 0 * 16777216 + bs.getD 1 0 * 65536 + bs.getD 2 0 * 256 + bs.getD 3 0

/-- Extend the 16-word message schedule by `n` further words. -/
def extendSchedule (w : List Nat) : Nat → List Nat
  | 0 => w
  | n + 1 =>
      let L := w.length
      let s0 :=
        rotr32 7 (w.getD (L - 15) 0) ^^^ rotr32 18 (w.getD (L - 15) 0) ^^^
          (w.getD (L - 15) 0 >>> 3)
      let s1 :=
        rotr32 17 (w.getD (L - 2) 0) ^^^ rotr32 19 (w.getD (L - 2) 0) ^^^
          (w.getD (L - 2) 0 >>> 10)
      extendSchedule (w ++ [(w.getD (L - 16) 0 + s0 + w.getD (L - 7) 0 + s1) % M32]) n

/-- The 64-word message schedule of one 64-byte block. -/
def sha256Schedule (block : List Nat) : List Nat :=
  extendSchedule ((List.range 16).map (fun i => beWord (block.drop (4 * i)))) 48

/-- One round of the SHA-256 compression function. -/
def sha256Round (s : Hash8) (kw : Nat × Nat) : Hash8 :=
  let S1 := rotr32 6 s.e ^^^ rotr32 11 s.e ^^^ rotr32 25 s.e
  let ch := (s.e &&& s.f) ^^^ (bnot32 s.e &&& s.g)
  let t1 := (s.h + S1 + ch + kw.1 + kw.2) % M32
  let S0 := rotr32 2 s.a ^^^ rotr32 13 s.a ^^^ rotr32 22 s.a
  let mj := (s.a &&& s.b) ^^^ (s.a &&& s.c) ^^^ (s.b &&& s.c)
  let t2 := (S0 + mj) % M32
  ⟨(t1 + t2) % M32, s.a, s.b, s.c, (s.d + t1) % M32, s.e, s.f, s.g⟩

/-- Process one 64-byte block. -/
def sha256Block (st : Hash8) (block : List Nat) : Hash8 :=
  let w := sha256Schedule block
  let r := (sha256K.zip w).foldl sha256Round st
  ⟨(st.a + r.a) % M32, (st.b + r.b) % M32, (st.c + r.c) % M32,
   (st.d + r.d) % M32, (st.e + r.e) % M32, (st.f + r.f) % M32,
   (st.g + r.g) % M32, (st.h + r.h) % M32⟩

/-- Big-endian byte serialization of a 32-bit word. -/
def wordBytes (w : Nat) : List Nat :=
  [w / 16777216 % 256, w / 65536 % 256, w / 256 % 256, w % 256]

/-- The 32-byte SHA-256 digest of a byte list. -/
def sha256Digest (msg : List Nat) : List Nat :=
  let st := (chunks64 (sha256Pad msg)).foldl sha256Block sha256H0
  wordBytes st.a ++ wordBytes st.b ++ wordBytes st.c ++ wordBytes st.d ++
    wordBytes st.e ++ wordBytes st.f ++ wordBytes st.g ++ wordBytes st.h

/-! ## The PKCE helpers of `src/app/page.tsx` -/

/-- The character list produced by the `sha256` helper: UTF-8 encode,
SHA-256 digest, `btoa`, then `+`→`-`, `/`→`_`, and strip trailing `=`. -/
def sha256Chars (plain : String) : List Char :=
  let data := utf8Bytes plain
  let hash := sha256Digest data
  stripTrailingEq (replaceAllChar '/' '_' (replaceAllChar '+' '-' (btoaChars hash)))

/-- The `sha256` helper of `src/app/page.tsx`, packaging its character
list as a string. -/
def sha256 (plain : String) : String :=
  ⟨sha256Chars plain⟩

/-- The 66-character unreserved charset of `generateRandomString`. -/
def pkceCharset : List Char :=
  "ABCDEFGHIJKLMNOPQRSTUVWXYZabcdefghijklmnopqrstuvwxyz0123456789-._~".data

/-- `generateRandomString`, with the bytes drawn by `crypto.getRandomValues`
passed explicitly: each byte indexes the charset modulo its length. -/
def generateRandomString (randomValues : List Nat) : String :=
  ⟨randomValues.map (fun v => pkceCharset.getD (v % pkceCharset.length) ' ')⟩

/-- Modelled from the spec: base64url encoding with no `=` padding, the
encoding the spec states the challenge derivation produces. -/
def base64urlNoPad (bytes : List Nat) : String :=
  ⟨b64Encode b64UrlAlphabet false bytes⟩

/-! ## The token exchange of the auth callback page

The callback page reads `code`, `error` and `error_description` from the
redirect parameters and, when appropriate, runs `exchangeCodeForTokens`.
The browser session storage is modelled by the record of the keys the
client uses; the token endpoint's response is an explicit input, its body
given as `none` when `response.json()` would throw (not valid JSON) and as
the parsed fields otherwise. -/

/-- The JSON fields of a token-endpoint response body that the client
reads; absent fields are `none` (JavaScript `undefined`). -/
structure TokenData where
  access_token : Option String
  id_token : Option String
  refresh_token : Option String
  token_type : Option String
  expires_in : Option Nat
  error : Option String
  error_description : Option String
deriving DecidableEq, Repr

/-- An HTTP response from the token endpoint: its status code and the
outcome of parsing its body as JSON (`none` when parsing throws). -/
structure HttpResponse where
  status : Nat
  body : Option TokenData
deriving DecidableEq, Repr

/-- `response.ok`: the status lies in the 2xx success range. -/
def respOk (r : HttpResponse) : Bool :=
  200 ≤ r.status && r.status < 300

/-- The session-storage keys the client reads and writes. -/
structure SessionStore where
  code_verifier : Option String
  access_token : Option String
  id_token : Option String
  refresh_token : Option String
  tokens : Option TokenData
deriving DecidableEq, Repr

/-- JavaScript string coercion of a possibly-undefined value, as performed
by `sessionStorage.setItem` and template interpolation. -/
def jsToString : Option String → String
  | none => "undefined"
  | some s => s

/-- JavaScript truthiness of a possibly-absent string: absent and empty
strings are falsy. -/
def jsTruthy : Option String → Bool
  | none => false
  | some s => !(s == "")

/-- The JavaScript `x || dflt` idiom on a possibly-absent string. -/
def jsOr (x : Option String) (dflt : String) : String :=
  match x with
  | none => dflt
  | some s => if s == "" then dflt else s

/-- The outcome of one run of the callback page's effect: either tokens
were obtained or an error message was set. -/
inductive ExchangeResult where
  | success (tokens : TokenData)
  | failure (message : String)
deriving DecidableEq, Repr

/-- `true` exactly on the failure outcome. -/
def ExchangeResult.isFailure : ExchangeResult → Bool
  | .success _ => false
  | .failure _ => true

/-- One run of the exchanger: its outcome, the session storage afterwards,
and how many network requests were dispatched. -/
structure ExchangeRun where
  result : ExchangeResult
  store : SessionStore
  networkCalls : Nat
deriving DecidableEq, Repr

/-- The message of the error thrown when no code verifier is stored. -/
def missingVerifierMessage : String :=
  "Code verifier not found. Please start the auth flow from the home page."

/-- Models the message of the `SyntaxError` thrown by `response.json()`
on a body that is not valid JSON. -/
def jsonParseErrorMessage : String :=
  "Unexpected end of JSON input"

/-- `exchangeCodeForTokens` from the auth callback page.  It reads the
verifier from storage — the JavaScript `if (!codeVerifier)` test throws
before any request when the stored value is absent OR the empty string —
then POSTs to the token endpoint, throws on a non-ok status with the
body's `error_description` (or a generic message), and on success stores
`access_token`, `id_token`, conditionally `refresh_token`, and the full
token response. -/
def exchangeCodeForTokens (code : String) (store : SessionStore)
    (response : HttpResponse) : ExchangeRun :=
  if !(jsTruthy store.code_verifier) then
    ⟨.failure missingVerifierMessage, store, 0⟩
  else if respOk response then
    match response.body with
    | none => ⟨.failure jsonParseErrorMessage, store, 1⟩
    | some tokenData =>
        ⟨.success tokenData,
         { store with
           access_token := some (jsToString tokenData.access_token),
           id_token := some (jsToString tokenData.id_token),
           refresh_token :=
             if jsTruthy tokenData.refresh_token then tokenData.refresh_token
             else store.refresh_token,
           tokens := some tokenData },
         1⟩
  else
    match response.body with
    | none => ⟨.failure jsonParseErrorMessage, store, 1⟩
    | some errorData =>
        ⟨.failure (jsOr errorData.error_description "Token exchange failed"),
         store, 1⟩

/-- The effect hook of the callback page: an `error` parameter short-circuits
to a failure, a missing `code` fails, and otherwise the code is exchanged. -/
def authCallbackRun (code errorParam errorDescription : Option String)
    (store : SessionStore) (response : HttpResponse) : ExchangeRun :=
  if jsTruthy errorParam then
    ⟨.failure (jsToString errorParam ++ ": " ++ jsOr errorDescription "Unknown error"),
     store, 0⟩
  else if !(jsTruthy code) then
    ⟨.failure "Authorization code missing", store, 0⟩
  else
    exchangeCodeForTokens (jsToString code) store response

/-- Decidable check that `sub` occurs as a contiguous substring of `s`. -/
def strContainsB (s sub : String) : Bool :=
  (List.range (s.data.length + 1)).any
    (fun i => sub.data.isPrefixOf (s.data.drop i))

/-- The composite of the two character replacements of the `sha256` helper:
`+` becomes `-`, then `/` becomes `_`. -/
def stdToUrlChar (c : Char) : Char :=
  if (if c = '+' then '-' else c) = '/' then '_'
  else if c = '+' then '-' else c

/-- Length of the base64 encoding of `n` bytes. -/
def b64Len (padded : Bool) : Nat → Nat
  | 0 => 0
  | 1 => if padded then 4 else 2
  | 2 => if padded then 4 else 3
  | n + 3 => 4 + b64Len padded n

/-! ## Helper lemmas -/

theorem replaceAll_compose (l : List Char) :
    replaceAllChar '/' '_' (replaceAllChar '+' '-' l) = l.map stdToUrlChar := by
  simp only [replaceAllChar, List.map_map]
  rfl

theorem stdToUrl_getD : ∀ i : Nat, i < 64 →
    stdToUrlChar (b64StdAlphabet.getD i ' ') = b64UrlAlphabet.getD i ' ' := by
  decide

theorem url_getD_ne_eq : ∀ i : Nat, i < 64 → b64UrlAlphabet.getD i ' ' ≠ '=' := by
  decide

theorem dropWhile_eq_self_of_not (p : Char → Bool) (l : List Char)
    (h : ∀ x ∈ l, ¬ p x) : l.dropWhile p = l := by
  cases l with
  | nil => rfl
  | cons x xs =>
      rw [List.dropWhile_cons, if_neg]
      simp only [Bool.not_eq_true] at h ⊢
      exact h x (by simp)

theorem stripTrailingEq_append (a b : List Char) (ha : '=' ∉ a) :
    stripTrailingEq (a ++ b) = a ++ stripTrailingEq b := by
  unfold stripTrailingEq
  rw [List.reverse_append, List.dropWhile_append]
  by_cases hb : (b.reverse.dropWhile (fun c => c = '=')).isEmpty = true
  · rw [if_pos hb]
    rw [List.isEmpty_iff] at hb
    rw [hb]
    rw [dropWhile_eq_self_of_not]
    · simp
    · intro x hx
      simp only [decide_eq_true_eq]
      intro hxe
      exact ha (by simpa [hxe] using (List.mem_reverse.mp hx))
  · rw [if_neg hb]
    simp [List.reverse_append]

theorem stripTrailingEq_nil : stripTrailingEq [] = [] := rfl

theorem b64Encode_length (alpha : List Char) (padded : Bool) :
    (bs : List Nat) → (b64Encode alpha padded bs).length = b64Len padded bs.length
  | [] => rfl
  | [_] => by cases padded <;> simp [b64Encode, b64Len]
  | [_, _] => by cases padded <;> simp [b64Encode, b64Len]
  | _ :: _ :: _ :: rest => by
      have ih := b64Encode_length alpha padded rest
      simp [b64Encode, ih]
      rw [show rest.length + 1 + 1 + 1 = rest.length + 3 from rfl, b64Len]
      omega

theorem strip_repl_b64 : (bs : List Nat) → (∀ b ∈ bs, b < 256) →
    stripTrailingEq ((b64Encode b64StdAlphabet true bs).map stdToUrlChar)
      = b64Encode b64UrlAlphabet false bs
  | [], _ => rfl
  | [b1], h => by
      have hb1 : b1 < 256 := h b1 (by simp)
      have h1 : b1 / 4 < 64 := by omega
      have h2 : b1 % 4 * 16 < 64 := by omega
      have e1 := stdToUrl_getD _ h1
      have e2 := stdToUrl_getD _ h2
      have n1 := url_getD_ne_eq _ h1
      have n2 := url_getD_ne_eq _ h2
      simp only [b64Encode, if_true]
      rw [List.map_append]
      simp only [List.map_cons, List.map_nil, e1, e2]
      rw [show stdToUrlChar '=' = '=' from rfl]
      rw [stripTrailingEq_append]
      · simp [show stripTrailingEq ['=', '='] = [] from rfl]
      · simp only [List.mem_cons, List.not_mem_nil, or_false]
        rintro (hc | hc)
        · exact n1 hc.symm
        · exact n2 hc.symm
  | [b1, b2], h => by
      have hb1 : b1 < 256 := h b1 (by simp)
      have hb2 : b2 < 256 := h b2 (by simp)
      have h1 : b1 / 4 < 64 := by omega
      have h2 : b1 % 4 * 16 + b2 / 16 < 64 := by omega
      have h3 : b2 % 16 * 4 < 64 := by omega
      have e1 := stdToUrl_getD _ h1
      have e2 := stdToUrl_getD _ h2
      have e3 := stdToUrl_getD _ h3
      have n1 := url_getD_ne_eq _ h1
      have n2 := url_getD_ne_eq _ h2
      have n3 := url_getD_ne_eq _ h3
      simp only [b64Encode, if_true]
      rw [List.map_append]
      simp only [List.map_cons, List.map_nil, e1, e2, e3]
      rw [show stdToUrlChar '=' = '=' from rfl]
      rw [stripTrailingEq_append]
      · simp [show stripTrailingEq ['='] = [] from rfl]
      · simp only [List.mem_cons, List.not_mem_nil, or_false]
        rintro (hc | hc | hc)
        · exact n1 hc.symm
        · exact n2 hc.symm
        · exact n3 hc.symm
  | b1 :: b2 :: b3 :: rest, h => by
      have hb1 : b1 < 256 := h b1 (by simp)
      have hb2 : b2 < 256 := h b2 (by simp)
      have hb3 : b3 < 256 := h b3 (by simp)
      have h1 : b1 / 4 < 64 := by omega
      have h2 : b1 % 4 * 16 + b2 / 16 < 64 := by omega
      have h3 : b2 % 16 * 4 + b3 / 64 < 64 := by omega
      have h4 : b3 % 64 < 64 := by omega
      have e1 := stdToUrl_getD _ h1
      have e2 := stdToUrl_getD _ h2
      have e3 := stdToUrl_getD _ h3
      have e4 := stdToUrl_getD _ h4
      have n1 := url_getD_ne_eq _ h1
      have n2 := url_getD_ne_eq _ h2
      have n3 := url_getD_ne_eq _ h3
      have n4 := url_getD_ne_eq _ h4
      have ih := strip_repl_b64 rest (fun b hb => h b (by simp [hb]))
      simp only [b64Encode]
      rw [List.map_append]
      simp only [List.map_cons, List.map_nil, e1, e2, e3, e4]
      rw [stripTrailingEq_append]
      · rw [ih]
      · simp only [List.mem_cons, List.not_mem_nil, or_false]
        rintro (hc | hc | hc | hc)
        · exact n1 hc.symm
        · exact n2 hc.symm
        · exact n3 hc.symm
        · exact n4 hc.symm

theorem wordBytes_lt (w : Nat) : ∀ b ∈ wordBytes w, b < 256 := by
  simp [wordBytes]
  omega

theorem sha256Digest_lt (msg : List Nat) : ∀ b ∈ sha256Digest msg, b < 256 := by
  intro b hb
  unfold sha256Digest at hb
  simp only [List.mem_append] at hb
  rcases hb with ((((((hb | hb) | hb) | hb) | hb) | hb) | hb) | hb <;>
    exact wordBytes_lt _ b hb

theorem sha256Digest_length (msg : List Nat) : (sha256Digest msg).length = 32 := by
  simp [sha256Digest, wordBytes]

theorem sha256_data_eq (plain : String) :
    (sha256 plain).data
      = b64Encode b64UrlAlphabet false (sha256Digest (utf8Bytes plain)) := by
  simp only [sha256, sha256Chars, btoaChars]
  rw [replaceAll_compose]
  exact strip_repl_b64 _ (sha256Digest_lt _)

theorem b64Encode_nopad_mem (alpha : List Char) (h64 : alpha.length = 64) :
    (bs : List Nat) → (∀ b ∈ bs, b < 256) →
      ∀ c ∈ b64Encode alpha false bs, c ∈ alpha
  | [], _ => by simp [b64Encode]
  | [b1], h => by
      have hb1 : b1 < 256 := h b1 (by simp)
      intro c hc
      simp only [b64Encode, if_neg Bool.false_ne_true, List.append_nil,
        List.mem_cons, List.not_mem_nil, or_false] at hc
      rcases hc with hc | hc <;>
        · subst hc
          rw [List.getD_eq_getElem alpha ' ' (by omega)]
          exact List.getElem_mem _
  | [b1, b2], h => by
      have hb1 : b1 < 256 := h b1 (by simp)
      have hb2 : b2 < 256 := h b2 (by simp)
      intro c hc
      simp only [b64Encode, if_neg Bool.false_ne_true, List.append_nil,
        List.mem_cons, List.not_mem_nil, or_false] at hc
      rcases hc with hc | hc | hc <;>
        · subst hc
          rw [List.getD_eq_getElem alpha ' ' (by omega)]
          exact List.getElem_mem _
  | b1 :: b2 :: b3 :: rest, h => by
      have hb1 : b1 < 256 := h b1 (by simp)
      have hb2 : b2 < 256 := h b2 (by simp)
      have hb3 : b3 < 256 := h b3 (by simp)
      have ih := b64Encode_nopad_mem alpha h64 rest (fun b hb => h b (by simp [hb]))
      intro c hc
      simp only [b64Encode, List.mem_append, List.mem_cons, List.not_mem_nil,
        or_false] at hc
      rcases hc with (hc | hc | hc | hc) | hc
      · subst hc
        rw [List.getD_eq_getElem alpha ' ' (by omega)]
        exact List.getElem_mem _
      · subst hc
        rw [List.getD_eq_getElem alpha ' ' (by omega)]
        exact List.getElem_mem _
      · subst hc
        rw [List.getD_eq_getElem alpha ' ' (by omega)]
        exact List.getElem_mem _
      · subst hc
        rw [List.getD_eq_getElem alpha ' ' (by omega)]
        exact List.getElem_mem _
      · exact ih c hc

theorem url_alphabet_chars : ∀ c ∈ b64UrlAlphabet, c ≠ '=' ∧ c ≠ '+' ∧ c ≠ '/' := by
  decide

theorem string_length_data (s : String) : s.length = s.data.length := rfl

theorem btoaChars_eq : btoaChars = b64Encode b64StdAlphabet true := rfl

/-! ## Claims about the PKCE helpers -/

/-- C1: for every verifier string, the challenge produced by the `sha256`
helper equals the base64url encoding (with `+`→`-`, `/`→`_`, trailing `=`
stripped) of the SHA-256 digest of the verifier's UTF-8 byte sequence,
that is, the no-padding base64url encoding of that digest. -/
theorem sha256_helper_is_base64url_digest (verifier : String) :
    sha256 verifier = base64urlNoPad (sha256Digest (utf8Bytes verifier)) := by
  apply String.ext
  rw [sha256_data_eq]
  rfl

set_option maxHeartbeats 2000000 in
/-- C2: on the verifier of the standard PKCE S256 test vector, the
`sha256` helper returns exactly the vector's challenge. -/
theorem sha256_helper_pkce_test_vector :
    sha256 "dBjftJeZ4CVP-mB92K27uhbUJU1p1r_wW1gFWFOEjXk"
      = "E9Melhoa2OwvFrEMTJguCHaoeK1t8URWbuGJSstw-cM" := by
  decide

/-- C10: for every input string the `sha256` helper returns exactly 43
characters, each from the base64url alphabet and none of them `=`, `+` or
`/`; the padded base64 encoding it strips is 44 characters long. -/
theorem sha256_helper_output_shape (plain : String) :
    (sha256 plain).length = 43 ∧
    (btoaChars (sha256Digest (utf8Bytes plain))).length = 44 ∧
    ∀ c ∈ (sha256 plain).data, c ∈ b64UrlAlphabet ∧ c ≠ '=' ∧ c ≠ '+' ∧ c ≠ '/' := by
  have hd := sha256_data_eq plain
  refine ⟨?_, ?_, ?_⟩
  · rw [string_length_data, hd, b64Encode_length, sha256Digest_length]
    decide
  · rw [btoaChars_eq, b64Encode_length, sha256Digest_length]
    decide
  · intro c hc
    rw [hd] at hc
    have hmem := b64Encode_nopad_mem b64UrlAlphabet (by decide)
      (sha256Digest (utf8Bytes plain)) (sha256Digest_lt _) c hc
    exact ⟨hmem, url_alphabet_chars c hmem⟩

/-- C7: a verifier generated from 128 random bytes has length exactly 128
(hence within the PKCE bound 43–128) and all its characters belong to the
66-symbol unreserved charset into which each byte is mapped by modulo. -/
theorem generateRandomString_shape (randomValues : List Nat)
    (h : randomValues.length = 128) :
    (generateRandomString randomValues).length = 128 ∧
    43 ≤ (generateRandomString randomValues).length ∧
    (generateRandomString randomValues).length ≤ 128 ∧
    pkceCharset.length = 66 ∧
    ∀ c ∈ (generateRandomString randomValues).data, c ∈ pkceCharset := by
  have hlen : (generateRandomString randomValues).length = randomValues.length := by
    show (randomValues.map _).length = randomValues.length
    exact List.length_map _ _
  refine ⟨by omega, by omega, by omega, by decide, ?_⟩
  intro c hc
  have hc' : c ∈ randomValues.map
      (fun v => pkceCharset.getD (v % pkceCharset.length) ' ') := hc
  obtain ⟨v, _, hv⟩ := List.mem_map.mp hc'
  rw [← hv, List.getD_eq_getElem pkceCharset ' ' (Nat.mod_lt v (by decide))]
  exact List.getElem_mem _

/-- C7 witness: the all-zero byte vector of length 128. -/
theorem generateRandomString_shape_witness :
    (List.replicate 128 (0 : Nat)).length = 128 ∧
    ((generateRandomString (List.replicate 128 0)).length = 128 ∧
     43 ≤ (generateRandomString (List.replicate 128 0)).length ∧
     (generateRandomString (List.replicate 128 0)).length ≤ 128 ∧
     pkceCharset.length = 66 ∧
     ∀ c ∈ (generateRandomString (List.replicate 128 0)).data, c ∈ pkceCharset) :=
  ⟨by simp, generateRandomString_shape (List.replicate 128 0) (by simp)⟩

/-! ## Claims about the token exchange -/

/-- C4: with no code verifier in storage, the exchanger fails with the
missing-verifier error and dispatches zero network calls. -/
theorem exchange_missing_verifier (code : String) (store : SessionStore)
    (response : HttpResponse) (h : store.code_verifier = none) :
    (exchangeCodeForTokens code store response).result
        = .failure missingVerifierMessage ∧
    (exchangeCodeForTokens code store response).networkCalls = 0 := by
  simp [exchangeCodeForTokens, h, jsTruthy]

/-- C4 witness: an empty storage and a 200 response that is never used. -/
theorem exchange_missing_verifier_witness :
    ((⟨none, none, none, none, none⟩ : SessionStore).code_verifier = none) ∧
    ((exchangeCodeForTokens "abc" ⟨none, none, none, none, none⟩
        ⟨200, none⟩).result = .failure missingVerifierMessage ∧
     (exchangeCodeForTokens "abc" ⟨none, none, none, none, none⟩
        ⟨200, none⟩).networkCalls = 0) :=
  ⟨rfl, exchange_missing_verifier "abc" ⟨none, none, none, none, none⟩
    ⟨200, none⟩ rfl⟩

/-- C3 counterexample: after a successful exchange the stored code
verifier is NOT cleared — it is still the value stored before the run,
so a subsequent load does not return none. -/
theorem exchange_keeps_verifier_counterexample :
    (exchangeCodeForTokens "code" ⟨some "v", none, none, none, none⟩
        ⟨200, some ⟨some "at", some "idt", some "rt", some "Bearer",
          some 3600, none, none⟩⟩).store.code_verifier = some "v" ∧
    (exchangeCodeForTokens "code" ⟨some "v", none, none, none, none⟩
        ⟨200, some ⟨some "at", some "idt", some "rt", some "Bearer",
          some 3600, none, none⟩⟩).store.code_verifier ≠ none := by
  decide

/-- C3 amended: the exchanger never touches the stored code verifier; after
every exchange attempt, success or failure, the verifier in session storage
is exactly what it was before the attempt. -/
theorem exchange_preserves_verifier (code : String) (store : SessionStore)
    (response : HttpResponse) :
    (exchangeCodeForTokens code store response).store.code_verifier
      = store.code_verifier := by
  unfold exchangeCodeForTokens
  by_cases ht : jsTruthy store.code_verifier = true <;>
    by_cases hok : respOk response = true <;>
      cases hb : response.body <;> simp [ht, hok, hb]

/-- C5 counterexample: a 2xx response whose parseable body lacks
`access_token` does not fail; the exchanger succeeds and stores the
JavaScript coercion "undefined" as the access token. -/
theorem exchange_ok_without_access_token_counterexample :
    (exchangeCodeForTokens "c" ⟨some "v", none, none, none, none⟩
        ⟨200, some ⟨none, none, none, some "Bearer", some 3600, none, none⟩⟩).result
      = .success ⟨none, none, none, some "Bearer", some 3600, none, none⟩ ∧
    (⟨none, none, none, some "Bearer", some 3600, none, none⟩ : TokenData).access_token
      = none ∧
    (exchangeCodeForTokens "c" ⟨some "v", none, none, none, none⟩
        ⟨200, some ⟨none, none, none, some "Bearer", some 3600, none, none⟩⟩).store.access_token
      = some "undefined" := by
  decide

/-- C5 amended: under a 2xx status, with a non-empty verifier stored (the
JavaScript-truthy condition of the code's `if (!codeVerifier)` guard), the
exchange fails exactly when the body is not valid JSON — with the JSON
parse error standing for MalformedResponse — and succeeds on every
parseable body, returning its fields as-is, whether or not `access_token`
is present. -/
theorem exchange_ok_parse_behavior (code : String) (store : SessionStore)
    (response : HttpResponse) (hv : jsTruthy store.code_verifier = true)
    (hok : respOk response = true) :
    (response.body = none →
      (exchangeCodeForTokens code store response).result
        = .failure jsonParseErrorMessage) ∧
    (∀ td, response.body = some td →
      (exchangeCodeForTokens code store response).result = .success td) := by
  constructor
  · intro hb
    simp [exchangeCodeForTokens, hv, hok, hb]
  · intro td hb
    simp [exchangeCodeForTokens, hv, hok, hb]

/-- C5 witness: a 200 response with a parseable body containing an access
token succeeds with that body. -/
theorem exchange_ok_parse_behavior_witness :
    jsTruthy (⟨some "v", none, none, none, none⟩ : SessionStore).code_verifier = true ∧
    respOk ⟨200, some ⟨some "at", none, none, some "Bearer", some 3600, none, none⟩⟩ = true ∧
    (((⟨200, some ⟨some "at", none, none, some "Bearer", some 3600, none, none⟩⟩ :
        HttpResponse).body = none →
      (exchangeCodeForTokens "c" ⟨some "v", none, none, none, none⟩
        ⟨200, some ⟨some "at", none, none, some "Bearer", some 3600, none, none⟩⟩).result
          = .failure jsonParseErrorMessage) ∧
     (∀ td, (⟨200, some ⟨some "at", none, none, some "Bearer", some 3600, none, none⟩⟩ :
        HttpResponse).body = some td →
      (exchangeCodeForTokens "c" ⟨some "v", none, none, none, none⟩
        ⟨200, some ⟨some "at", none, none, some "Bearer", some 3600, none, none⟩⟩).result
          = .success td)) :=
  ⟨rfl, rfl, exchange_ok_parse_behavior "c" ⟨some "v", none, none, none, none⟩
    ⟨200, some ⟨some "at", none, none, some "Bearer", some 3600, none, none⟩⟩ rfl rfl⟩

/-- C6 counterexample: given HTTP 400 with body carrying only the field
`error = "invalid_grant"`, the exchanger's failure message is the generic
"Token exchange failed" and does not carry `invalid_grant`: the code reads
only `error_description` and ignores the upstream `error` field. -/
theorem exchange_rejected_drops_error_counterexample :
    (exchangeCodeForTokens "c" ⟨some "v", none, none, none, none⟩
        ⟨400, some ⟨none, none, none, none, none, some "invalid_grant", none⟩⟩).result
      = .failure "Token exchange failed" ∧
    strContainsB "Token exchange failed" "invalid_grant" = false := by
  decide

/-- C6 amended: on a non-2xx status, with a non-empty verifier stored (the
JavaScript-truthy condition of the code's `if (!codeVerifier)` guard), the
exchange fails carrying the body's `error_description` when present and
non-empty, else the generic message "Token exchange failed" (or the JSON
parse error when the body is unparseable); the upstream `error` field is
ignored, and exactly one network call is made — the exchange is never
retried. -/
theorem exchange_non2xx_failure (code : String) (store : SessionStore)
    (response : HttpResponse) (hv : jsTruthy store.code_verifier = true)
    (hnok : respOk response = false) :
    (exchangeCodeForTokens code store response).result
      = .failure (match response.body with
          | none => jsonParseErrorMessage
          | some errorData => jsOr errorData.error_description "Token exchange failed") ∧
    (exchangeCodeForTokens code store response).networkCalls = 1 := by
  cases hb : response.body <;> simp [exchangeCodeForTokens, hv, hnok, hb]

/-- C6 witness: HTTP 400 with an `error_description` that the failure
message carries. -/
theorem exchange_non2xx_failure_witness :
    jsTruthy (⟨some "v", none, none, none, none⟩ : SessionStore).code_verifier = true ∧
    respOk ⟨400, some ⟨none, none, none, none, none, some "invalid_grant",
      some "grant is invalid"⟩⟩ = false ∧
    ((exchangeCodeForTokens "c" ⟨some "v", none, none, none, none⟩
        ⟨400, some ⟨none, none, none, none, none, some "invalid_grant",
          some "grant is invalid"⟩⟩).result
      = .failure (match (⟨400, some ⟨none, none, none, none, none, some "invalid_grant",
          some "grant is invalid"⟩⟩ : HttpResponse).body with
          | none => jsonParseErrorMessage
          | some errorData => jsOr errorData.error_description "Token exchange failed") ∧
     (exchangeCodeForTokens "c" ⟨some "v", none, none, none, none⟩
        ⟨400, some ⟨none, none, none, none, none, some "invalid_grant",
          some "grant is invalid"⟩⟩).networkCalls = 1) :=
  ⟨rfl, rfl, exchange_non2xx_failure "c" ⟨some "v", none, none, none, none⟩
    ⟨400, some ⟨none, none, none, none, none, some "invalid_grant",
      some "grant is invalid"⟩⟩ rfl rfl⟩

/-- C8: when the redirect carries a (non-empty) `error` parameter, the
callback page fails directly and never attempts the token exchange — zero
network calls — regardless of the `code` parameter. -/
theorem callback_error_param_no_exchange
    (code errorParam errorDescription : Option String) (store : SessionStore)
    (response : HttpResponse) (h : jsTruthy errorParam = true) :
    (authCallbackRun code errorParam errorDescription store response).networkCalls = 0 ∧
    (authCallbackRun code errorParam errorDescription store response).result.isFailure
      = true ∧
    (authCallbackRun code errorParam errorDescription store response).store = store := by
  simp [authCallbackRun, h, ExchangeResult.isFailure]

/-- C8 witness: an `access_denied` error arriving together with a code. -/
theorem callback_error_param_no_exchange_witness :
    jsTruthy (some "access_denied") = true ∧
    ((authCallbackRun (some "abc") (some "access_denied") none
        ⟨some "v", none, none, none, none⟩ ⟨200, none⟩).networkCalls = 0 ∧
     (authCallbackRun (some "abc") (some "access_denied") none
        ⟨some "v", none, none, none, none⟩ ⟨200, none⟩).result.isFailure = true ∧
     (authCallbackRun (some "abc") (some "access_denied") none
        ⟨some "v", none, none, none, none⟩ ⟨200, none⟩).store
        = ⟨some "v", none, none, none, none⟩) :=
  ⟨rfl, callback_error_param_no_exchange (some "abc") (some "access_denied") none
    ⟨some "v", none, none, none, none⟩ ⟨200, none⟩ rfl⟩

/-- C9: no partial token set is ever persisted — whenever an exchange run
fails (missing verifier, non-2xx status, or unparseable body), every
token-holding key of session storage is exactly what it was before. -/
theorem exchange_failure_writes_no_tokens (code : String) (store : SessionStore)
    (response : HttpResponse) (msg : String)
    (h : (exchangeCodeForTokens code store response).result = .failure msg) :
    (exchangeCodeForTokens code store response).store.access_token
        = store.access_token ∧
    (exchangeCodeForTokens code store response).store.id_token = store.id_token ∧
    (exchangeCodeForTokens code store response).store.refresh_token
        = store.refresh_token ∧
    (exchangeCodeForTokens code store response).store.tokens = store.tokens := by
  unfold exchangeCodeForTokens at h ⊢
  by_cases ht : jsTruthy store.code_verifier = true
  · by_cases hok : respOk response = true <;>
      cases hb : response.body <;> simp [ht, hok, hb] at h ⊢
  · simp [ht]

/-- C9 witness: a failing run caused by a 500 response with an unparseable
body leaves all token keys untouched. -/
theorem exchange_failure_writes_no_tokens_witness :
    ((exchangeCodeForTokens "c" ⟨some "v", some "old", none, none, none⟩
        ⟨500, none⟩).result = .failure jsonParseErrorMessage) ∧
    ((exchangeCodeForTokens "c" ⟨some "v", some "old", none, none, none⟩
        ⟨500, none⟩).store.access_token
        = (⟨some "v", some "old", none, none, none⟩ : SessionStore).access_token ∧
     (exchangeCodeForTokens "c" ⟨some "v", some "old", none, none, none⟩
        ⟨500, none⟩).store.id_token
        = (⟨some "v", some "old", none, none, none⟩ : SessionStore).id_token ∧
     (exchangeCodeForTokens "c" ⟨some "v", some "old", none, none, none⟩
        ⟨500, none⟩).store.refresh_token
        = (⟨some "v", some "old", none, none, none⟩ : SessionStore).refresh_token ∧
     (exchangeCodeForTokens "c" ⟨some "v", some "old", none, none, none⟩
        ⟨500, none⟩).store.tokens
        = (⟨some "v", some "old", none, none, none⟩ : SessionStore).tokens) :=
  ⟨by decide, exchange_failure_writes_no_tokens "c"
    ⟨some "v", some "old", none, none, none⟩ ⟨500, none⟩
    jsonParseErrorMessage (by decide)⟩

end OidcClient
